import Mathlib

/-!
Shallow embedding of the authorization and session-scoped access-control
core of the `patic` server (Rust, actix-web).

The route handlers under `src/server/src/routes/` are translated directly:
each handler either fails with a `ServiceError` before reaching the service
layer, or produces a *service-call descriptor* recording exactly which
service operation it invokes and with which arguments.  The service layer,
the data models and the session utility are not part of the provided
sources; where a claim depends on them they are modelled from the
specification (each such definition says so in its doc comment).
-/

/-- Modelled from the spec (§7, `models/error.rs` is not in the sources):
the service error taxonomy. -/
inductive ServiceError where
  | Unauthorized
  | NotFound
  | Expired
  | InvalidToken
  | Conflict
  | Internal
deriving DecidableEq, Repr

/-- Modelled from the spec (§3, `models/auth.rs` is not in the sources):
a resolved user session.  The route handlers only ever read its `user_id`
field, so only that field is modelled. -/
structure UserSession where
  user_id : Nat
deriving DecidableEq, Repr

namespace Post

/-- Modelled from the route doc comments (`models/post.rs` is not in the
sources): body of `POST /posts`.  The handlers never inspect its fields. -/
structure CreateArgs where
  title : String
  content : String
  date : String
deriving DecidableEq, Repr

/-- Modelled from the route doc comments (`models/post.rs` is not in the
sources): body of `PATCH /posts/:id`.  The handlers never inspect its
fields. -/
structure UpdateArgs where
  title : Option String
  content : Option String
  date : Option String
deriving DecidableEq, Repr

end Post

/-- Descriptor of a call into the post service (`services::post`), which is
not part of the provided sources: it records the operation and the exact
arguments a route handler passes, mirroring the call sites in
`src/server/src/routes/post.rs`. -/
inductive PostServiceCall where
  | get (owner_id : Nat) (post_id : Nat)
  | get_list (owner_id : Nat)
  | create (owner_id : Nat) (args : Post.CreateArgs)
  | update (post_id : Nat) (owner_id : Nat) (args : Post.UpdateArgs)
  | delete (post_id : Nat) (owner_id : Nat)
deriving DecidableEq, Repr

/-- `GET /posts/:id` (`src/server/src/routes/post.rs`, `get_post`): if the
session resolves, call `post::get(user_session.user_id, id)`, otherwise
fail `Unauthorized`. -/
def get_post (session : Option UserSession) (id : Nat) :
    Except ServiceError PostServiceCall :=
  match session with
  | some user_session => .ok (.get user_session.user_id id)
  | none => .error .Unauthorized

/-- `GET /posts` (`src/server/src/routes/post.rs`, `get_posts`): if the
session resolves, call `post::get_list(user_session.user_id)`, otherwise
fail `Unauthorized`. -/
def get_posts (session : Option UserSession) :
    Except ServiceError PostServiceCall :=
  match session with
  | some user_session => .ok (.get_list user_session.user_id)
  | none => .error .Unauthorized

/-- `POST /posts` (`src/server/src/routes/post.rs`, `create_post`): if the
session resolves, call `post::create(user_session.user_id, post)`,
otherwise fail `Unauthorized`. -/
def create_post (session : Option UserSession) (post : Post.CreateArgs) :
    Except ServiceError PostServiceCall :=
  match session with
  | some user_session => .ok (.create user_session.user_id post)
  | none => .error .Unauthorized

/-- `DELETE /posts/:id` (`src/server/src/routes/post.rs`, `delete_post`):
if the session resolves, call `post::delete(id, user_session.user_id)`,
otherwise fail `Unauthorized`. -/
def delete_post (session : Option UserSession) (id : Nat) :
    Except ServiceError PostServiceCall :=
  match session with
  | some user_session => .ok (.delete id user_session.user_id)
  | none => .error .Unauthorized

/-- `PATCH /posts/:id` (`src/server/src/routes/post.rs`, `update_post`):
if the session resolves, call
`post::update(id, user_session.user_id, args)`, otherwise fail
`Unauthorized`. -/
def update_post (session : Option UserSession) (id : Nat)
    (args : Post.UpdateArgs) : Except ServiceError PostServiceCall :=
  match session with
  | some user_session => .ok (.update id user_session.user_id args)
  | none => .error .Unauthorized

/-- §4.4 of the spec: a route decision is followed by the storage
operation it names.  `dispatch` runs the service-layer interpretation
`interp` on the state `σ` only when the route produced a call descriptor;
an error result leaves the state untouched. -/
def dispatch {S C B : Type} (σ : S) (r : Except ServiceError C)
    (interp : S → C → S × Except ServiceError B) :
    S × Except ServiceError B :=
  match r with
  | .error e => (σ, .error e)
  | .ok c => interp σ c

namespace User

/-- Modelled from the route doc comments (`models/user.rs` is not in the
sources): body of `POST /users` (public-key + token-pin registration). -/
structure CreateArgs where
  user_public_key : String
  token_key : String
  token_pin : String
deriving DecidableEq, Repr

/-- Modelled from the route doc comments (`models/user.rs` is not in the
sources): body of `PATCH /users/:id`. -/
structure UpdateArgs where
  name : String
  password : String
  avatar_url : String
deriving DecidableEq, Repr

end User

/-- Modelled from the route doc comments (`routes/user/models.rs` is not
in the sources): body of `POST /users/password`. -/
structure ResetPasswordArgs where
  email : String
  token_id : String
  temporary_password : String
  new_password : String
deriving DecidableEq, Repr

/-- Descriptor of a call into the flat user service (`services::user`),
which is not part of the provided sources: it records the operation and
the exact arguments the flat route module
(`src/server/src/routes/user.rs`) passes. -/
inductive FlatUserCall where
  | create (args : User.CreateArgs)
  | update (id : Nat) (args : User.UpdateArgs)
  | delete (id : Nat)
deriving DecidableEq, Repr

/-- Descriptor of a call into `UserService` (not part of the provided
sources): it records the operation and the exact arguments the nested
route module (`src/server/src/routes/user/mod.rs`) passes. -/
inductive NestedUserCall where
  | create (user_public_key : String) (token_key : String)
      (token_pin : String)
  | update (id : Nat) (name : String) (password : String)
      (avatar_url : String)
  | delete (id : Nat)
  | reset_password (email : String) (token_id : String)
      (temporary_password : String) (new_password : String)
deriving DecidableEq, Repr

/-- Names of the HTTP endpoints a route module registers in its
`init_routes` function. -/
inductive RouteName where
  | create_user
  | delete_user
  | update_user
  | reset_password
deriving DecidableEq, Repr

namespace UserFlat

/-- `src/server/src/routes/user.rs`, `create_user`: calls
`user::create(args)` unconditionally (no session is read). -/
def create_user (args : User.CreateArgs) :
    Except ServiceError FlatUserCall :=
  .ok (.create args)

/-- `src/server/src/routes/user.rs`, `delete_user`: if the session
resolves and the path id equals the session user id, call
`user::delete(id_in_path)`; otherwise fail `Unauthorized`. -/
def delete_user (session : Option UserSession) (id : Nat) :
    Except ServiceError FlatUserCall :=
  match session with
  | some user_session =>
      if id ≠ user_session.user_id then .error .Unauthorized
      else .ok (.delete id)
  | none => .error .Unauthorized

/-- `src/server/src/routes/user.rs`, `update_user`: if the session
resolves and the path id equals the session user id, call
`user::update(id_in_path, args)`; otherwise fail `Unauthorized`. -/
def update_user (session : Option UserSession) (id : Nat)
    (user : User.UpdateArgs) : Except ServiceError FlatUserCall :=
  match session with
  | some user_session =>
      if id ≠ user_session.user_id then .error .Unauthorized
      else .ok (.update id user)
  | none => .error .Unauthorized

/-- `src/server/src/routes/user.rs`, `init_routes`: the flat module
registers create, delete and update only. -/
def init_routes : List RouteName :=
  [.create_user, .delete_user, .update_user]

end UserFlat

namespace UserRoute

/-- `src/server/src/routes/user/mod.rs`, `UserRoute::create_user`:
destructures the body and calls
`UserService::new().create(user_public_key, token_key, token_pin)`
unconditionally (no session is read). -/
def create_user (args : User.CreateArgs) :
    Except ServiceError NestedUserCall :=
  .ok (.create args.user_public_key args.token_key args.token_pin)

/-- `src/server/src/routes/user/mod.rs`, `UserRoute::delete_user`: if the
session resolves and the path id equals the session user id, call
`UserService::new().delete(id_in_path)`; otherwise fail `Unauthorized`. -/
def delete_user (session : Option UserSession) (id : Nat) :
    Except ServiceError NestedUserCall :=
  match session with
  | some user_session =>
      if id ≠ user_session.user_id then .error .Unauthorized
      else .ok (.delete id)
  | none => .error .Unauthorized

/-- `src/server/src/routes/user/mod.rs`, `UserRoute::update_user`: if the
session resolves and the path id equals the session user id, destructure
the body and call
`UserService::new().update(id_in_path, name, password, avatar_url)`;
otherwise fail `Unauthorized`. -/
def update_user (session : Option UserSession) (id : Nat)
    (args : User.UpdateArgs) : Except ServiceError NestedUserCall :=
  match session with
  | some user_session =>
      if id ≠ user_session.user_id then .error .Unauthorized
      else .ok (.update id args.name args.password args.avatar_url)
  | none => .error .Unauthorized

/-- `src/server/src/routes/user/mod.rs`, `UserRoute::reset_password`:
destructures the body and calls
`UserService::new().reset_password(email, token_id, temporary_password,
new_password)` unconditionally (no session is read). -/
def reset_password (args : ResetPasswordArgs) :
    Except ServiceError NestedUserCall :=
  .ok (.reset_password args.email args.token_id args.temporary_password
    args.new_password)

/-- `src/server/src/routes/user/mod.rs`, `init_routes`: the nested module
registers create, delete, update and reset-password. -/
def init_routes : List RouteName :=
  [.create_user, .delete_user, .update_user, .reset_password]

end UserRoute

/-- `src/server/src/routes/user/mod.rs`, `create_user_route`
(`POST /users`): the endpoint handler declares no session extractor, so
the ambient session context — made explicit here as the first argument —
is never read; the handler delegates to `UserRoute::create_user(args)`. -/
def create_user_route (_session : Option UserSession)
    (args : User.CreateArgs) : Except ServiceError NestedUserCall :=
  UserRoute.create_user args

/-- `src/server/src/routes/user/mod.rs`, `reset_password_route`
(`POST /users/password`): the endpoint handler declares no session
extractor, so the ambient session context — made explicit here as the
first argument — is never read; the handler delegates to
`UserRoute::reset_password(args)`. -/
def reset_password_route (_session : Option UserSession)
    (args : ResetPasswordArgs) : Except ServiceError NestedUserCall :=
  UserRoute.reset_password args

/-- Modelled from the spec (§3, the user service and models are not in the
sources): a stored user record.  The spec keys reset tokens by `email`, so
the stored user carries the email the token targets; only the fields the
reset protocol touches are modelled. -/
structure StoredUser where
  id : Nat
  email : String
  password_hash : String
deriving DecidableEq, Repr

/-- Modelled from the spec (§4.3): the per-token state of the
password-reset state machine. -/
inductive TokenState where
  | Pending
  | Consumed
  | Expired
deriving DecidableEq, Repr

/-- Modelled from the spec (§3): a password-reset token.
`temporary_password` holds the *hash* of the temporary password, per the
spec (`temporary_password` is "hashed, single-use"). -/
structure PasswordResetToken where
  token_id : String
  email : String
  temporary_password : String
  expiry : Nat
  state : TokenState
deriving DecidableEq, Repr

/-- Modelled from the spec: an abstract, injective stand-in for the
password-hashing function (`hash(new_password)` in §4.3).  No claim
depends on any property of the hash beyond it being a function. -/
def hashPassword (password : String) : String :=
  String.append "hashed:" password

/-- Modelled from the spec (§4.3): the stored state the reset protocol
reads and writes — users, reset tokens, and the session store. -/
structure Store where
  users : List StoredUser
  tokens : List PasswordResetToken
  sessions : List UserSession
deriving DecidableEq, Repr

/-- Look up a reset token by `(email, token_id)` (§4.3). -/
def findToken (tokens : List PasswordResetToken) (email token_id : String) :
    Option PasswordResetToken :=
  tokens.find? (fun t => t.email == email && t.token_id == token_id)

/-- Set the state of the token(s) keyed by `(email, token_id)`. -/
def setTokenState : List PasswordResetToken → String → String →
    TokenState → List PasswordResetToken
  | [], _, _, _ => []
  | t :: rest, email, token_id, st =>
    (if t.email == email && t.token_id == token_id then
      { t with state := st }
    else t) :: setTokenState rest email token_id st

namespace UserService

/-- Modelled from the spec (§4.3, `UserService::reset_password` is not in
the sources): the password-reset protocol.
Look up the token by `(email, token_id)`, failing `NotFound` if absent;
a token already in a terminal state (Consumed or Expired) fails
`InvalidToken` regardless of the supplied password; a pending token past
its expiry is marked Expired and fails `Expired`; a temporary-password
mismatch (constant-time hash comparison) fails `Unauthorized`; otherwise
the user's password hash is replaced, the token is marked Consumed, and
the user's sessions are invalidated. -/
def reset_password (σ : Store) (now : Nat) (email token_id : String)
    (temporary_password new_password : String) :
    Store × Except ServiceError Bool :=
  match findToken σ.tokens email token_id with
  | none => (σ, .error .NotFound)
  | some t =>
      if t.state = .Consumed ∨ t.state = .Expired then
        (σ, .error .InvalidToken)
      else if t.expiry < now then
        ({ σ with tokens := setTokenState σ.tokens email token_id .Expired },
         .error .Expired)
      else if hashPassword temporary_password ≠ t.temporary_password then
        (σ, .error .Unauthorized)
      else
        ({ users := σ.users.map (fun u =>
             if u.email == email then
               { u with password_hash := hashPassword new_password }
             else u),
           tokens := setTokenState σ.tokens email token_id .Consumed,
           sessions := σ.sessions.filter (fun s =>
             !σ.users.any (fun u => u.email == email && u.id == s.user_id)) },
         .ok true)

end UserService

/-- The state of the token keyed by `(email, token_id)` in a store, as
seen by the protocol's lookup. -/
def tokenState (σ : Store) (email token_id : String) : Option TokenState :=
  (findToken σ.tokens email token_id).map (fun t => t.state)

/-- Arguments of one `reset_password` invocation (with its observation
time), used to talk about sequences of reset attempts. -/
structure ResetCall where
  now : Nat
  email : String
  token_id : String
  temporary_password : String
  new_password : String
deriving DecidableEq, Repr

/-- The store after one `reset_password` invocation. -/
def applyReset (σ : Store) (c : ResetCall) : Store :=
  (UserService.reset_password σ c.now c.email c.token_id
    c.temporary_password c.new_password).1

/-- The store after a sequence of `reset_password` invocations. -/
def applyResets (σ : Store) (cs : List ResetCall) : Store :=
  cs.foldl applyReset σ

/-- Modelled from the spec (§4.1, `session_util::get_session` is not in
the sources): the request context a session is resolved from — the
session cookie may be absent, expired, malformed, or valid. -/
inductive RequestContext where
  | absent
  | expired
  | malformed
  | valid (s : UserSession)
deriving DecidableEq, Repr

/-- Modelled from the spec (§4.1, `session_util::get_session` is not in
the sources): session resolution.  A total function into
`Option UserSession`: `none` for an absent, expired or malformed session,
`some` for a valid one — it never fails. -/
def get_session : RequestContext → Option UserSession
  | .absent => none
  | .expired => none
  | .malformed => none
  | .valid s => some s

/-- Translation between the two route modules' service-call descriptors:
the flat module passes argument structs through, the nested module
destructures them first.  The translation preserves every id and every
field value. -/
def flatToNested : FlatUserCall → NestedUserCall
  | .create args => .create args.user_public_key args.token_key
      args.token_pin
  | .update id args => .update id args.name args.password args.avatar_url
  | .delete id => .delete id

/-- A consumed reset token whose expiry (5) has also passed, with stored
temporary-password hash `hashPassword "tp"`. -/
def consumedExpiredToken : PasswordResetToken :=
  ⟨"t4", "u@x.y", hashPassword "tp", 5, .Consumed⟩

/-- A store holding `consumedExpiredToken`. -/
def consumedExpiredStore : Store :=
  ⟨[⟨7, "u@x.y", hashPassword "old"⟩], [consumedExpiredToken], []⟩

/-- A still-pending reset token whose expiry (5) has passed. -/
def pendingExpiredToken : PasswordResetToken :=
  ⟨"t5", "v@x.y", hashPassword "tp", 5, .Pending⟩

/-- A store holding `pendingExpiredToken`. -/
def pendingExpiredStore : Store :=
  ⟨[⟨8, "v@x.y", hashPassword "old"⟩], [pendingExpiredToken], []⟩

/-- A consumed (unexpired) reset token. -/
def consumedToken : PasswordResetToken :=
  ⟨"tok1", "a@b.c", hashPassword "temp", 100, .Consumed⟩

/-- A store holding `consumedToken` and a live session for its user. -/
def consumedStore : Store :=
  ⟨[⟨1, "a@b.c", hashPassword "old"⟩], [consumedToken], [⟨1⟩]⟩

/-- Updating the state of the token keyed `(ce, ck)` does not change what
a lookup under a *different* key `(e, k)` finds. -/
theorem findToken_setTokenState (ts : List PasswordResetToken)
    (e k ce ck : String) (st : TokenState) (h : ¬(ce = e ∧ ck = k)) :
    findToken (setTokenState ts ce ck st) e k = findToken ts e k := by
  induction ts with
  | nil => rfl
  | cons t rest ih =>
    unfold findToken at ih ⊢
    simp only [setTokenState]
    cases hck : (t.email == ce && t.token_id == ck) with
    | true =>
      rw [if_pos rfl]
      cases hek : (t.email == e && t.token_id == k) with
      | true =>
        exfalso
        rw [Bool.and_eq_true] at hck hek
        exact h ⟨(eq_of_beq hck.1).symm.trans (eq_of_beq hek.1),
          (eq_of_beq hck.2).symm.trans (eq_of_beq hek.2)⟩
      | false =>
        rw [List.find?_cons, List.find?_cons]
        dsimp only
        rw [hek]
        exact ih
    | false =>
      rw [if_neg Bool.false_ne_true]
      cases hek : (t.email == e && t.token_id == k) with
      | true =>
        rw [List.find?_cons, List.find?_cons]
        rw [hek]
      | false =>
        rw [List.find?_cons, List.find?_cons]
        rw [hek]
        exact ih

/-- One `reset_password` invocation never changes the observed state of a
token that is already terminal (Consumed or Expired). -/
theorem tokenState_applyReset_of_terminal (σ : Store) (e k : String)
    (st : TokenState) (hst : tokenState σ e k = some st)
    (hterm : st = .Consumed ∨ st = .Expired) (c : ResetCall) :
    tokenState (applyReset σ c) e k = some st := by
  cases hft : findToken σ.tokens c.email c.token_id with
  | none =>
    simpa [applyReset, UserService.reset_password, hft] using hst
  | some t =>
    by_cases h1 : t.state = .Consumed ∨ t.state = .Expired
    · simpa [applyReset, UserService.reset_password, hft, h1] using hst
    · have hk : ¬(c.email = e ∧ c.token_id = k) := by
        rintro ⟨rfl, rfl⟩
        unfold tokenState at hst
        rw [hft] at hst
        simp only [Option.map_some'] at hst
        rw [Option.some.injEq] at hst
        apply h1
        rw [hst]
        exact hterm
      by_cases h2 : t.expiry < c.now
      · have hrw := findToken_setTokenState σ.tokens e k c.email
          c.token_id TokenState.Expired hk
        simpa [applyReset, UserService.reset_password, hft, h1, h2,
          tokenState, hrw] using hst
      · by_cases h3 : hashPassword c.temporary_password
            ≠ t.temporary_password
        · simpa [applyReset, UserService.reset_password, hft, h1, h2,
            h3] using hst
        · have hrw := findToken_setTokenState σ.tokens e k c.email
            c.token_id TokenState.Consumed hk
          simpa [applyReset, UserService.reset_password, hft, h1, h2,
            h3, tokenState, hrw] using hst

/-- A terminal token stays terminal, with the same state, through any
sequence of `reset_password` invocations. -/
theorem tokenState_applyResets_of_terminal (e k : String)
    (st : TokenState) (hterm : st = .Consumed ∨ st = .Expired) :
    ∀ (cs : List ResetCall) (σ : Store), tokenState σ e k = some st →
      tokenState (applyResets σ cs) e k = some st := by
  intro cs
  induction cs with
  | nil => intro σ h; exact h
  | cons c rest ih =>
    intro σ h
    have h1 := tokenState_applyReset_of_terminal σ e k st h hterm c
    simpa only [applyResets, List.foldl_cons] using
      ih (applyReset σ c) h1

/-- A `reset_password` attempt against a token the lookup sees in a
terminal state fails with `InvalidToken`, whatever the supplied
passwords. -/
theorem reset_password_invalidToken_of_terminal (σ : Store)
    (e k : String) (st : TokenState) (hst : tokenState σ e k = some st)
    (hterm : st = .Consumed ∨ st = .Expired) (now : Nat)
    (temporary_password new_password : String) :
    (UserService.reset_password σ now e k temporary_password
      new_password).2 = .error .InvalidToken := by
  cases hft : findToken σ.tokens e k with
  | none =>
    unfold tokenState at hst
    rw [hft] at hst
    simp at hst
  | some t =>
    have ht : t.state = .Consumed ∨ t.state = .Expired := by
      unfold tokenState at hst
      rw [hft] at hst
      simp only [Option.map_some'] at hst
      rw [Option.some.injEq] at hst
      rw [hst]
      exact hterm
    simp [UserService.reset_password, hft, ht]

/-- The result value of `reset_password` is the same on two stores that
agree on users and tokens, whatever their session stores hold: the
protocol writes sessions but never reads them for its decision. -/
theorem reset_password_snd_sessions (σ1 σ2 : Store)
    (htokens : σ1.tokens = σ2.tokens) (now : Nat)
    (email token_id temporary_password new_password : String) :
    (UserService.reset_password σ1 now email token_id
      temporary_password new_password).2
    = (UserService.reset_password σ2 now email token_id
      temporary_password new_password).2 := by
  unfold UserService.reset_password
  rw [htokens]
  cases hft : findToken σ2.tokens email token_id with
  | none => rfl
  | some t =>
    dsimp only
    split
    · rfl
    · split
      · rfl
      · split
        · rfl
        · rfl

/-- Claim C1: for the owner-scoped user operations `update_user(id)` and
`delete_user(id)` (in both route modules): with no resolvable session the
result is `Unauthorized`; with a session whose `user_id` differs from the
path id the result is `Unauthorized`; and with `session.user_id` equal to
the path id the handler invokes the underlying service operation with
that verified id. -/
theorem user_update_delete_owner_authorization (id : Nat)
    (s : UserSession) (args : User.UpdateArgs) :
    UserFlat.delete_user none id = Except.error ServiceError.Unauthorized
    ∧ UserFlat.update_user none id args
        = Except.error ServiceError.Unauthorized
    ∧ UserRoute.delete_user none id
        = Except.error ServiceError.Unauthorized
    ∧ UserRoute.update_user none id args
        = Except.error ServiceError.Unauthorized
    ∧ (s.user_id ≠ id →
        UserFlat.delete_user (some s) id
            = Except.error ServiceError.Unauthorized
        ∧ UserFlat.update_user (some s) id args
            = Except.error ServiceError.Unauthorized
        ∧ UserRoute.delete_user (some s) id
            = Except.error ServiceError.Unauthorized
        ∧ UserRoute.update_user (some s) id args
            = Except.error ServiceError.Unauthorized)
    ∧ (s.user_id = id →
        UserFlat.delete_user (some s) id
            = Except.ok (FlatUserCall.delete id)
        ∧ UserFlat.update_user (some s) id args
            = Except.ok (FlatUserCall.update id args)
        ∧ UserRoute.delete_user (some s) id
            = Except.ok (NestedUserCall.delete id)
        ∧ UserRoute.update_user (some s) id args
            = Except.ok (NestedUserCall.update id args.name args.password
                args.avatar_url)) := by
  refine ⟨rfl, rfl, rfl, rfl, ?_, ?_⟩
  · intro h
    have h2 : id ≠ s.user_id := fun e => h e.symm
    simp [UserFlat.delete_user, UserFlat.update_user,
      UserRoute.delete_user, UserRoute.update_user, h2]
  · intro h
    subst h
    simp [UserFlat.delete_user, UserFlat.update_user,
      UserRoute.delete_user, UserRoute.update_user]

/-- Witness for C1 at path id 1, sessions for users 2 (denied) and
1 (allowed). -/
theorem user_update_delete_owner_authorization_witness :
    (UserFlat.delete_user (some ⟨2⟩) 1
        = Except.error ServiceError.Unauthorized
      ∧ UserFlat.update_user (some ⟨2⟩) 1 ⟨"park", "pw", "a.jpg"⟩
        = Except.error ServiceError.Unauthorized
      ∧ UserRoute.delete_user (some ⟨2⟩) 1
        = Except.error ServiceError.Unauthorized
      ∧ UserRoute.update_user (some ⟨2⟩) 1 ⟨"park", "pw", "a.jpg"⟩
        = Except.error ServiceError.Unauthorized)
    ∧ (UserFlat.delete_user (some ⟨1⟩) 1
        = Except.ok (FlatUserCall.delete 1)
      ∧ UserFlat.update_user (some ⟨1⟩) 1 ⟨"park", "pw", "a.jpg"⟩
        = Except.ok (FlatUserCall.update 1 ⟨"park", "pw", "a.jpg"⟩)
      ∧ UserRoute.delete_user (some ⟨1⟩) 1
        = Except.ok (NestedUserCall.delete 1)
      ∧ UserRoute.update_user (some ⟨1⟩) 1 ⟨"park", "pw", "a.jpg"⟩
        = Except.ok (NestedUserCall.update 1 "park" "pw" "a.jpg")) :=
  ⟨(user_update_delete_owner_authorization 1 ⟨2⟩
      ⟨"park", "pw", "a.jpg"⟩).2.2.2.2.1 (by decide),
   (user_update_delete_owner_authorization 1 ⟨1⟩
      ⟨"park", "pw", "a.jpg"⟩).2.2.2.2.2 rfl⟩

/-- Claim C2: `create_post` takes the owner id of the new post from the
resolved session's `user_id`, never from the request body: for every
session and every body, the service is invoked as
`post::create(session.user_id, body)`; with no session the request fails
`Unauthorized` without any service call. -/
theorem create_post_owner_from_session (s : UserSession)
    (args : Post.CreateArgs) :
    create_post (some s) args
      = Except.ok (PostServiceCall.create s.user_id args)
    ∧ create_post none args = Except.error ServiceError.Unauthorized :=
  ⟨rfl, rfl⟩

/-- Claim C3: every Post endpoint fails with `Unauthorized` when session
resolution yields no session, and (via `dispatch`) no post service
operation runs, leaving any service-layer state unchanged. -/
theorem post_routes_unauthorized_without_session {S B : Type}
    (interp : S → PostServiceCall → S × Except ServiceError B) (σ : S)
    (id : Nat) (cargs : Post.CreateArgs) (uargs : Post.UpdateArgs) :
    get_post none id = Except.error ServiceError.Unauthorized
    ∧ get_posts none = Except.error ServiceError.Unauthorized
    ∧ create_post none cargs = Except.error ServiceError.Unauthorized
    ∧ delete_post none id = Except.error ServiceError.Unauthorized
    ∧ update_post none id uargs = Except.error ServiceError.Unauthorized
    ∧ dispatch σ (get_post none id) interp
        = (σ, Except.error ServiceError.Unauthorized)
    ∧ dispatch σ (get_posts none) interp
        = (σ, Except.error ServiceError.Unauthorized)
    ∧ dispatch σ (create_post none cargs) interp
        = (σ, Except.error ServiceError.Unauthorized)
    ∧ dispatch σ (delete_post none id) interp
        = (σ, Except.error ServiceError.Unauthorized)
    ∧ dispatch σ (update_post none id uargs) interp
        = (σ, Except.error ServiceError.Unauthorized) :=
  ⟨rfl, rfl, rfl, rfl, rfl, rfl, rfl, rfl, rfl, rfl⟩

/-- Claim C4, counterexample: a token that is already Consumed and whose
expiry (5) has passed at observation time 10, given the *correct*
temporary password, yields `InvalidToken`, not `Expired` — so "expiry has
passed implies the result is `Expired`" fails as stated. -/
theorem reset_password_expired_claim_counterexample :
    findToken consumedExpiredStore.tokens "u@x.y" "t4"
      = some consumedExpiredToken
    ∧ consumedExpiredToken.expiry < 10
    ∧ hashPassword "tp" = consumedExpiredToken.temporary_password
    ∧ (UserService.reset_password consumedExpiredStore 10 "u@x.y" "t4"
        "tp" "np").2 = Except.error ServiceError.InvalidToken
    ∧ ((UserService.reset_password consumedExpiredStore 10 "u@x.y" "t4"
        "tp" "np").2 = Except.error ServiceError.Expired) = False := by
  refine ⟨rfl, by decide, rfl, rfl, eq_false ?_⟩
  intro hc
  have h : (UserService.reset_password consumedExpiredStore 10 "u@x.y"
      "t4" "tp" "np").2 = Except.error ServiceError.InvalidToken := rfl
  rw [h] at hc
  exact absurd (Except.error.inj hc) (by decide)

/-- Claim C4 (amended): for every `reset_password` call in which the
looked-up token is still Pending and its expiry has passed, the result is
`Expired`, for every value of the temporary password including one
matching the stored hash. -/
theorem reset_password_expired_of_pending (σ : Store) (now : Nat)
    (email token_id temporary_password new_password : String)
    (t : PasswordResetToken)
    (hft : findToken σ.tokens email token_id = some t)
    (hpend : t.state = TokenState.Pending) (hexp : t.expiry < now) :
    (UserService.reset_password σ now email token_id temporary_password
      new_password).2 = Except.error ServiceError.Expired := by
  have h1 : ¬(t.state = TokenState.Consumed
      ∨ t.state = TokenState.Expired) := by
    simp [hpend]
  simp [UserService.reset_password, hft, h1, hexp]

/-- Witness for the amended C4: a pending token with expiry 5 observed at
time 10, supplied with the matching temporary password. -/
theorem reset_password_expired_of_pending_witness :
    (UserService.reset_password pendingExpiredStore 10 "v@x.y" "t5" "tp"
      "np").2 = Except.error ServiceError.Expired :=
  reset_password_expired_of_pending pendingExpiredStore 10 "v@x.y" "t5"
    "tp" "np" pendingExpiredToken rfl rfl (by decide)

/-- Claim C5: once a reset token is in a terminal state (Consumed or
Expired), no sequence of further `reset_password` invocations changes
that state, and every subsequent `reset_password` attempt against that
token fails with `InvalidToken`, for every supplied temporary password. -/
theorem reset_token_terminal_states_stable (σ : Store)
    (email token_id : String) (st : TokenState)
    (hst : tokenState σ email token_id = some st)
    (hterm : st = TokenState.Consumed ∨ st = TokenState.Expired)
    (cs : List ResetCall) (now : Nat)
    (temporary_password new_password : String) :
    tokenState (applyResets σ cs) email token_id = some st
    ∧ (UserService.reset_password (applyResets σ cs) now email token_id
        temporary_password new_password).2
      = Except.error ServiceError.InvalidToken := by
  have hs := tokenState_applyResets_of_terminal email token_id st hterm
    cs σ hst
  exact ⟨hs, reset_password_invalidToken_of_terminal _ _ _ _ hs hterm
    _ _ _⟩

/-- Witness for C5: a consumed token stays Consumed through an
intervening reset attempt with the correct temporary password, and a
further attempt still fails `InvalidToken`. -/
theorem reset_token_terminal_states_stable_witness :
    tokenState consumedStore "a@b.c" "tok1" = some TokenState.Consumed
    ∧ (tokenState (applyResets consumedStore
          [⟨50, "a@b.c", "tok1", "temp", "zzz"⟩]) "a@b.c" "tok1"
        = some TokenState.Consumed
      ∧ (UserService.reset_password (applyResets consumedStore
            [⟨50, "a@b.c", "tok1", "temp", "zzz"⟩]) 60 "a@b.c" "tok1"
            "temp" "www").2 = Except.error ServiceError.InvalidToken) :=
  ⟨rfl, reset_token_terminal_states_stable consumedStore "a@b.c" "tok1"
    TokenState.Consumed rfl (Or.inl rfl)
    [⟨50, "a@b.c", "tok1", "temp", "zzz"⟩] 60 "temp" "www"⟩

/-- Claim C6: user creation and password reset are exempt from the
session check — their handlers read no session, so their outcome is
identical across any two session states, and the reset protocol's result
value is identical across any two session stores. -/
theorem create_user_reset_password_session_independent
    (s1 s2 : Option UserSession) (cargs : User.CreateArgs)
    (rargs : ResetPasswordArgs) (σ : Store)
    (sessions1 sessions2 : List UserSession) (now : Nat) :
    create_user_route s1 cargs = create_user_route s2 cargs
    ∧ reset_password_route s1 rargs = reset_password_route s2 rargs
    ∧ (UserService.reset_password { σ with sessions := sessions1 } now
        rargs.email rargs.token_id rargs.temporary_password
        rargs.new_password).2
      = (UserService.reset_password { σ with sessions := sessions2 } now
        rargs.email rargs.token_id rargs.temporary_password
        rargs.new_password).2 :=
  ⟨rfl, rfl, reset_password_snd_sessions
    { σ with sessions := sessions1 } { σ with sessions := sessions2 }
    rfl now rargs.email rargs.token_id rargs.temporary_password
    rargs.new_password⟩

/-- Claim C7: session resolution is total and never fails for a missing
session — it returns `none` for an absent, expired or malformed context,
`some` for a valid one, and on every context it yields one of the two. -/
theorem get_session_total_resolution (ctx : RequestContext)
    (s : UserSession) :
    get_session RequestContext.absent = none
    ∧ get_session RequestContext.expired = none
    ∧ get_session RequestContext.malformed = none
    ∧ get_session (RequestContext.valid s) = some s
    ∧ (get_session ctx = none
      ∨ ∃ u, ctx = RequestContext.valid u ∧ get_session ctx = some u) := by
  refine ⟨rfl, rfl, rfl, rfl, ?_⟩
  cases ctx with
  | absent => exact Or.inl rfl
  | expired => exact Or.inl rfl
  | malformed => exact Or.inl rfl
  | valid u => exact Or.inr ⟨u, rfl, rfl⟩

/-- Claim C8: the flat and nested user route modules make identical
authorization decisions — on every session state and path id the nested
result is the flat result up to the descriptor translation
`flatToNested`, which preserves errors and every id — and only the
nested module registers a password-reset endpoint. -/
theorem user_route_modules_agree (session : Option UserSession)
    (id : Nat) (args : User.UpdateArgs) (cargs : User.CreateArgs) :
    UserRoute.delete_user session id
      = Except.map flatToNested (UserFlat.delete_user session id)
    ∧ UserRoute.update_user session id args
      = Except.map flatToNested (UserFlat.update_user session id args)
    ∧ UserRoute.create_user cargs
      = Except.map flatToNested (UserFlat.create_user cargs)
    ∧ UserFlat.init_routes.contains RouteName.reset_password = false
    ∧ UserRoute.init_routes.contains RouteName.reset_password = true := by
  refine ⟨?_, ?_, rfl, by decide, by decide⟩
  · cases session with
    | none => rfl
    | some s =>
      by_cases h : id ≠ s.user_id
      · simp [UserRoute.delete_user, UserFlat.delete_user, h, Except.map]
      · simp [UserRoute.delete_user, UserFlat.delete_user, h, Except.map,
          flatToNested]
  · cases session with
    | none => rfl
    | some s =>
      by_cases h : id ≠ s.user_id
      · simp [UserRoute.update_user, UserFlat.update_user, h, Except.map]
      · simp [UserRoute.update_user, UserFlat.update_user, h, Except.map,
          flatToNested]

/-- Claim C9: an authorization denial is side-effect free — when a
handler denies because the session is absent or its `user_id` differs
from the path id, `dispatch` runs no service operation and returns the
state unchanged, for every service interpretation. -/
theorem denied_requests_state_unchanged {S B : Type}
    (interpUser : S → FlatUserCall → S × Except ServiceError B)
    (interpPost : S → PostServiceCall → S × Except ServiceError B)
    (interpNested : S → NestedUserCall → S × Except ServiceError B)
    (σ : S) (id : Nat) (s : UserSession) (args : User.UpdateArgs) :
    dispatch σ (UserFlat.delete_user none id) interpUser
      = (σ, Except.error ServiceError.Unauthorized)
    ∧ dispatch σ (delete_post none id) interpPost
      = (σ, Except.error ServiceError.Unauthorized)
    ∧ dispatch σ (UserRoute.update_user none id args) interpNested
      = (σ, Except.error ServiceError.Unauthorized)
    ∧ (s.user_id ≠ id →
        dispatch σ (UserFlat.delete_user (some s) id) interpUser
          = (σ, Except.error ServiceError.Unauthorized)
        ∧ dispatch σ (UserRoute.update_user (some s) id args) interpNested
          = (σ, Except.error ServiceError.Unauthorized)) := by
  refine ⟨rfl, rfl, rfl, ?_⟩
  intro h
  have h2 : id ≠ s.user_id := fun e => h e.symm
  simp [dispatch, UserFlat.delete_user, UserRoute.update_user, h2]

/-- Witness for C9: user 2's session attempting operations on path id 1
is denied and the (numeric) state 0 is returned unchanged. -/
theorem denied_requests_state_unchanged_witness :
    dispatch 0 (UserFlat.delete_user (some ⟨2⟩) 1)
      (fun (n : Nat) (_ : FlatUserCall) => (n + 1, Except.ok true))
      = (0, Except.error ServiceError.Unauthorized)
    ∧ dispatch 0 (UserRoute.update_user (some ⟨2⟩) 1
        ⟨"park", "pw", "a.jpg"⟩)
      (fun (n : Nat) (_ : NestedUserCall) => (n + 1, Except.ok true))
      = (0, Except.error ServiceError.Unauthorized) :=
  (denied_requests_state_unchanged
    (fun (n : Nat) (_ : FlatUserCall) => (n + 1, Except.ok true))
    (fun (n : Nat) (_ : PostServiceCall) => (n + 1, Except.ok true))
    (fun (n : Nat) (_ : NestedUserCall) => (n + 1, Except.ok true))
    0 1 ⟨2⟩ ⟨"park", "pw", "a.jpg"⟩).2.2.2 (by decide)

/-- Claim C10: post reads are always scoped to the requesting identity —
with a resolved session, `get_post` and `get_posts` pass exactly
`session.user_id` as the owner argument to the post service, for every
path id. -/
theorem post_reads_scoped_to_session (s : UserSession) (id : Nat) :
    get_post (some s) id = Except.ok (PostServiceCall.get s.user_id id)
    ∧ get_posts (some s)
        = Except.ok (PostServiceCall.get_list s.user_id) :=
  ⟨rfl, rfl⟩
